import Mathlib

/-!
# Verification of the augmento task-distribution and pipeline-execution engine

Shallow embedding of the core of the augmento repository:

* `SafeQueue` — the thread-safe queue of `include/multithread.hpp`;
* `Image` — the image record of `include/image.hpp` / `src/image.cpp`
  (pixel buffer, name, globally unique id, history log);
* mt19937 — the `std::mt19937` engine used by `Pipeline::apply`
  (`src/pipeline.cpp`), modelled word-for-word after the C++ standard's
  mersenne_twister_engine with the uint32 arithmetic made explicit as
  `% 2 ^ 32`;
* `Pipeline` — the (operation, probability) list and the two `apply`
  overloads of `src/pipeline.cpp`;
* `OperationFactory.create` — the name-dispatching builder of
  `src/factory.cpp` with the constructor validation of `src/operation.cpp`;
* `runTrace` — the order of queue/thread lifecycle operations performed by
  `ThreadController::run` / `waitForCompletion`
  (`src/thread_controller.cpp`).

Pixel-level transform mathematics (`manipulations.cpp`, OpenCV) is out of
the core's scope; transforms appear as total functions on an abstract
pixel buffer.  The real-valued draws of `std::uniform_real_distribution`
are modelled exactly, as rationals, following the GNU libstdc++
`generate_canonical` (two 32-bit draws per uniform, value
`(x1 + x2·2^32)/2^64`); `std::uniform_int_distribution` follows the GNU
libstdc++ downscaling algorithm.
-/

namespace Augmento

/-! ## std::mt19937 (as used by `Pipeline::apply`) -/

/-- 2^32, the modulus of the 32-bit word arithmetic of mt19937. -/
def mtMod : Nat := 2 ^ 32

/-- One step of mt19937 state seeding:
`x[i] = (1812433253 * (x[i-1] ^ (x[i-1] >> 30)) + i) mod 2^32`. -/
def seedStep (prev i : Nat) : Nat :=
  (1812433253 * (prev ^^^ (prev >>> 30)) + i) % mtMod

/-- The seeded words `x[i], x[i+1], ..., x[i+n-1]` given `x[i-1] = prev`. -/
def seedWordsFrom (prev i : Nat) : Nat → List Nat
  | 0 => []
  | n + 1 =>
    let w := seedStep prev i
    w :: seedWordsFrom w (i + 1) n

/-- The full 624-word state produced by `mt19937::seed(seed)`. -/
def mtInit (seed : Nat) : List Nat :=
  (seed % mtMod) :: seedWordsFrom (seed % mtMod) 1 623

/-- One step of the mt19937 "twist" (generation of the next state batch),
performed in place at position `k`, exactly as in the in-place C++ loop:
positions below `k` already hold the new batch. -/
def twistStep (x : List Nat) (k : Nat) : List Nat :=
  let y := ((x.getD k 0) &&& 0x80000000) ||| ((x.getD ((k + 1) % 624) 0) &&& 0x7FFFFFFF)
  let xA := (y >>> 1) ^^^ (if y % 2 = 1 then 0x9908B0DF else 0)
  x.set k ((x.getD ((k + 397) % 624) 0 ^^^ xA) % mtMod)

/-- The full state twist (`_M_gen_rand` in libstdc++). -/
def twist (x : List Nat) : List Nat :=
  (List.range 624).foldl twistStep x

/-- mt19937 output tempering. -/
def temper (y0 : Nat) : Nat :=
  let y1 := y0 ^^^ (y0 >>> 11)
  let y2 := y1 ^^^ ((y1 <<< 7) &&& 0x9D2C5680)
  let y3 := y2 ^^^ ((y2 <<< 15) &&& 0xEFC60000)
  (y3 ^^^ (y3 >>> 18)) % mtMod

/-- Generator state: the 624 words plus the position of the next output.
`idx = 624` forces a twist before the next output, which is the state
right after seeding. -/
structure MTState where
  words : List Nat
  idx : Nat
deriving DecidableEq, Repr

/-- `std::mt19937 rand; rand.seed(s)` — `seed` is an `unsigned int`,
reduced mod 2^32 by `mtInit`. -/
def mtSeed (seed : Nat) : MTState :=
  ⟨mtInit seed, 624⟩

/-- Produce the next 32-bit output (`rand()`), twisting when the current
batch is exhausted. -/
def MTState.next (g : MTState) : Nat × MTState :=
  if g.idx ≥ 624 then
    let w := twist g.words
    (temper (w.getD 0 0), ⟨w, 1⟩)
  else
    (temper (g.words.getD g.idx 0), ⟨g.words, g.idx + 1⟩)

/-- One draw of `std::uniform_real_distribution<double>(0.0, 1.0)`,
scaled by 2^64: libstdc++ `generate_canonical` makes two 32-bit draws and
returns `(x1 + x2·2^32) / 2^64`; we return the numerator. -/
def nextCanonical (g : MTState) : Nat × MTState :=
  let (x1, g1) := g.next
  let (x2, g2) := g1.next
  (x1 + x2 * mtMod, g2)

/-- One draw of `std::uniform_int_distribution<int>(0, 1)` on mt19937
(libstdc++ downscaling: reject outputs `≥ 4294967294`, divide by
`2147483647`).  The rejection loop is given explicit fuel; fuel
exhaustion (which a real run never hits) yields 0. -/
def drawAxis : Nat → MTState → Nat × MTState
  | 0, g => (0, g)
  | fuel + 1, g =>
    let (x, g1) := g.next
    if x ≥ 4294967294 then drawAxis fuel g1
    else (x / 2147483647, g1)

/-! ## SafeQueue (include/multithread.hpp)

State of a `SafeQueue<T>`: the buffered items (front first) and the
`done_` flag.  The mutex and condition variable serialize accesses; the
embedded operations are the per-call state transitions.  A call that
would block (a `cv_.wait` that cannot yet return) is modelled by the
`Option` result `none`. -/

structure SafeQueue (T : Type) where
  queue : List T
  done : Bool
deriving DecidableEq, Repr

/-- `SafeQueue::push`: unconditionally appends and notifies.  There is no
capacity check and no check of `done_` — the call never blocks. -/
def SafeQueue.push {T} (q : SafeQueue T) (item : T) : SafeQueue T :=
  { q with queue := q.queue ++ [item] }

/-- `SafeQueue::pop`: waits until `!queue_.empty() || done_`; then pops
the front if available (`return true`), else returns `false`.
`none` models the blocked wait (empty and not done). -/
def SafeQueue.pop? {T} (q : SafeQueue T) : Option (Option T × SafeQueue T) :=
  match q.queue with
  | x :: rest => some (some x, { q with queue := rest })
  | [] => if q.done then some (none, q) else none

/-- `SafeQueue::setDone`: sets `done_` and wakes all waiters. -/
def SafeQueue.setDone {T} (q : SafeQueue T) : SafeQueue T :=
  { q with done := true }

/-- Results of `n` successive `pop` calls (stopping early if a call
blocks): the list of `ok`-results and the final queue state. -/
def popOks {T} : Nat → SafeQueue T → List (Option T) × SafeQueue T
  | 0, q => ([], q)
  | n + 1, q =>
    match q.pop? with
    | some (r, q') =>
      let (rs, qf) := popOks n q'
      (r :: rs, qf)
    | none => ([], q)

/-! ## Image (include/image.hpp, src/image.cpp) -/

/-- The pixel buffer (`cv::Mat`), kept abstract as rows of pixel values;
its mathematics is out of the core's scope (spec §1, §6). -/
def PixelBuf : Type := List (List Nat)
deriving instance DecidableEq, Repr for PixelBuf

/-- The `Image` record: pixel data, display name, globally unique id and
the append-only history log. -/
structure Image where
  data : PixelBuf
  name : String
  id : Nat
  history : List String
deriving DecidableEq, Repr

/-- `Image::Image(const cv::Mat&, const std::string&)`: clones the data,
stores the name, takes `id_ = global_id_++`.  The atomic counter is
threaded explicitly; the result pairs the image with the new counter. -/
def imageFromMat (m : PixelBuf) (name : String) (counter : Nat) : Image × Nat :=
  ({ data := m, name := name, id := counter, history := [] }, counter + 1)

/-- `Image::Image(const std::string& path)`: stores the path as the name,
takes a fresh id, and sets `data_ = cv::imread(path)`.  The decoder is an
external collaborator, modelled by the `decoded` argument (`none` =
decode failed, `cv::imread` returned an empty `Mat`).  On an empty
result the constructor only writes a diagnostic to `stderr` (returned as
the third component); it never throws. -/
def imageFromPath (decoded : Option PixelBuf) (path : String) (counter : Nat) :
    Image × Nat × Option String :=
  let img : Image := { data := decoded.getD [], name := path, id := counter, history := [] }
  (img, counter + 1,
    if (decoded.getD []).isEmpty then
      some ("Error: Failed to load image from " ++ path)
    else none)

/-! ## Operations and the Pipeline (src/pipeline.cpp, src/operation.cpp)

Every concrete operation of `operation.cpp` has the shape: draw its
parameters from the generator (never reading the image), transform the
pixel buffer, append one history line recording the operation and the
sampled parameters.  An `Operation` captures exactly that shape. -/

/-- A pipeline operation: parameter sampling from the generator, the
pixel transform, and the history line `Image::logOperation` receives. -/
structure Operation where
  sample : MTState → List ℚ × MTState
  transform : List ℚ → PixelBuf → PixelBuf
  logMsg : List ℚ → String

/-- `OperationEntry` (factory.hpp): an operation with its probability. -/
structure OperationEntry where
  op : Operation
  prob : ℚ

/-- `Pipeline` (pipeline.hpp): the ordered entry list and the base seed
(an `unsigned int`). -/
structure Pipeline where
  operations : List OperationEntry
  base_seed : Nat

/-- The comparison `dist(rand) < op.prob` of `Pipeline::apply`, with
`u` the 2^64-scaled uniform draw: the drawn value is `u / 2^64`
(written with `mkRat` so that concrete instances evaluate;
`coin_eq_div` below restates it with `/`). -/
def coin (u : Nat) (prob : ℚ) : Bool :=
  decide (mkRat u (2 ^ 64) < prob)

/-- `Operation::apply(img, rng)`: sample, transform in place, log. -/
def Operation.applyOp (op : Operation) (img : Image) (g : MTState) : Image × MTState :=
  let (par, g1) := op.sample g
  ({ img with
      data := op.transform par img.data
      history := img.history ++ [op.logMsg par] }, g1)

/-- The loop body of both `Pipeline::apply` overloads: for each entry
draw one uniform value and invoke the operation iff it is below the
entry's probability, sharing one generator across the whole iteration. -/
def applyEntries : List OperationEntry → Image → MTState → Image × MTState
  | [], img, g => (img, g)
  | e :: es, img, g =>
    let (u, g1) := nextCanonical g
    if coin u e.prob then
      let (img2, g2) := e.op.applyOp img g1
      applyEntries es img2 g2
    else
      applyEntries es img g1

/-- `Pipeline::apply(Image&)`: seeds the generator with
`base_seed_ + (unsigned)img.getId()` (unsigned wrap-around). -/
def Pipeline.applyAuto (p : Pipeline) (img : Image) : Image :=
  (applyEntries p.operations img (mtSeed ((p.base_seed + img.id) % mtMod))).1

/-- `Pipeline::apply(Image&, unsigned int seed)`: seeds the generator
directly from the caller-supplied seed. -/
def Pipeline.applyWithSeed (p : Pipeline) (img : Image) (seed : Nat) : Image :=
  (applyEntries p.operations img (mtSeed (seed % mtMod))).1

/-- The observable decision trace of one pipeline run: for each entry,
whether it was invoked and, if so, the parameters it sampled.  Consumes
the generator exactly as `applyEntries` does; it is a function of the
entry list and the generator only — no image appears. -/
def traceEntries : List OperationEntry → MTState → List (Bool × Option (List ℚ))
  | [], _ => []
  | e :: es, g =>
    let (u, g1) := nextCanonical g
    if coin u e.prob then
      let (par, g2) := e.op.sample g1
      (true, some par) :: traceEntries es g2
    else
      (false, none) :: traceEntries es g1

/-- The decision trace of `Pipeline::apply(img, seed)`. -/
def Pipeline.traceWithSeed (p : Pipeline) (seed : Nat) : List (Bool × Option (List ℚ)) :=
  traceEntries p.operations (mtSeed (seed % mtMod))

/-- The history lines produced by a run with the given decision trace. -/
def historyOfTrace : List OperationEntry → List (Bool × Option (List ℚ)) → List String
  | e :: es, (_, some par) :: tr => e.op.logMsg par :: historyOfTrace es tr
  | _ :: es, (_, none) :: tr => historyOfTrace es tr
  | _, _ => []

/-! ## ReflectImage (src/operation.cpp)

`ReflectImage::apply` draws `axis` from
`std::uniform_int_distribution<int>(0, 1)`, flips vertically when
`axis == 0` (logging "ReflectImage: Vertical") and horizontally
otherwise (logging "ReflectImage: Horizontal").  The flips themselves
live in the external transform library; they are modelled as row
reversal / per-row reversal. -/

/-- Model of `reflectImageVertical` (external pixel math). -/
def reflectVerticalModel (rows : PixelBuf) : PixelBuf :=
  List.reverse rows

/-- Model of `reflectImageHorizontal` (external pixel math). -/
def reflectHorizontalModel (rows : PixelBuf) : PixelBuf :=
  List.map List.reverse rows

/-- The `ReflectImage` operation. -/
def reflectImageOp : Operation where
  sample g :=
    let (axis, g1) := drawAxis 100 g
    ([(axis : ℚ)], g1)
  transform par buf :=
    if par.getD 0 0 = 0 then reflectVerticalModel buf else reflectHorizontalModel buf
  logMsg par :=
    if par.getD 0 0 = 0 then "ReflectImage: Vertical" else "ReflectImage: Horizontal"

/-- A small concrete pixel buffer used in concrete runs. -/
def demoBuf : PixelBuf := [[1, 2], [3, 4]]

/-- A concrete pipeline: one `ReflectImage` entry with probability 1,
base seed 1. -/
def demoPipeline : Pipeline :=
  { operations := [⟨reflectImageOp, 1⟩], base_seed := 1 }

/-- First of two identically constructed images (same data, same name):
takes id 0 from the counter. -/
def demoImageA : Image := (imageFromMat demoBuf "img.png" 0).1

/-- Second identically constructed image: takes id 1 from the counter
left by the first construction. -/
def demoImageB : Image := (imageFromMat demoBuf "img.png" (imageFromMat demoBuf "img.png" 0).2).1

/-! ## OperationFactory (src/factory.cpp, src/operation.cpp)

`OperationFactory::create(name, params, prob)` lower-cases the name,
dispatches on it, checks the parameter count per operation, and runs the
operation's constructor, whose range validation may throw
`std::invalid_argument`.  Errors are classified by their source: a
parameter-count check in `create`, a value check in a constructor, or
the final unrecognized-name branch.  (The formatted numeric values the
C++ messages interpolate are left out of the modelled messages.) -/

inductive BuildError where
  /-- wrong parameter count, thrown directly by `create`. -/
  | badCount (msg : String)
  /-- out-of-range parameter value, thrown by an operation constructor. -/
  | badValue (msg : String)
  /-- `operation "<name>" is not recognized`. -/
  | unrecognized (name : String)
deriving DecidableEq, Repr

/-- A built operation handle (`std::shared_ptr<Operation>` payload):
the constructor-stored configuration of each operation class. -/
inductive OpHandle where
  | rotate (minAngle maxAngle : ℚ) (rotType : Nat)
  | reflect
  | resizeScale (minScale maxScale : ℚ)
  | resizeAbs (minW maxW minH maxH : Int)
  | cropRandom (w h : Int)
  | cropFixed (x y w h : Int)
  /-- `AffineTransform` built from `std::random_device` (matrix not
  reproducible, out of the determinism contract). -/
  | affineRandom
  | affineFixed (entries : List ℚ)
  | colorJitter (b c s : ℚ) (hue : Int)
  | histEq
  | whiteBalance
  | toGrayscale
  | adjustBrightness (minV maxV : ℚ)
  | adjustContrast (minV maxV : ℚ)
  | adjustSaturation (minV maxV : ℚ)
  | adjustHue (minV maxV : Int)
  | injectNoiseDefault
  | injectNoise (meanMin meanMax stdevMin stdevMax : ℚ)
  | blurDefault
  | blur (minK maxK : Int)
  | sharpen
  | randomEraseDefault
  | randomErase (minH maxH minW maxW : Int)
deriving DecidableEq, Repr

/-- C++ `double` → `int` conversion: truncation toward zero. -/
def cppInt (q : ℚ) : Int :=
  if 0 ≤ q then ⌊q⌋ else ⌈q⌉

/-- C++ `static_cast<size_t>(double)` for the non-negative values the
source uses. -/
def cppSizeT (q : ℚ) : Nat :=
  (cppInt q).toNat

/-- `RotateImage::RotateImage`: rejects `min_angle > max_angle`. -/
def mkRotate (mn mx : ℚ) (rt : Nat) : Except BuildError OpHandle :=
  if mn > mx then .error (.badValue "RotateImage: min angle cannot be greater than max angle")
  else .ok (.rotate mn mx rt)

/-- `ResizeImage::ResizeImage(double, double)`: rejects `min > max`. -/
def mkResizeScale (mn mx : ℚ) : Except BuildError OpHandle :=
  if mn > mx then .error (.badValue "ResizeImage: min scale cannot be greater than max scale")
  else .ok (.resizeScale mn mx)

/-- `ResizeImage::ResizeImage(int, int, int, int)`: rejects
`min_w > max_w` then `min_h > max_h`. -/
def mkResizeAbs (minW maxW minH maxH : Int) : Except BuildError OpHandle :=
  if minW > maxW then .error (.badValue "ResizeImage: min width cannot be greater than max width")
  else if minH > maxH then .error (.badValue "ResizeImage: min height cannot be greater than max height")
  else .ok (.resizeAbs minW maxW minH maxH)

/-- `CropImage::CropImage(int, int)`: rejects negative dimensions. -/
def mkCropRandom (w h : Int) : Except BuildError OpHandle :=
  if w < 0 ∨ h < 0 then .error (.badValue "CropImage: cannot crop by negative dimensions")
  else .ok (.cropRandom w h)

/-- `CropImage::CropImage(int, int, int, int)`: rejects any negative
parameter. -/
def mkCropFixed (x y w h : Int) : Except BuildError OpHandle :=
  if w < 0 ∨ h < 0 ∨ x < 0 ∨ y < 0 then
    .error (.badValue "CropImage: all parameters must be non-negative")
  else .ok (.cropFixed x y w h)

/-- `ColorJitter::ColorJitter`: rejects any negative range. -/
def mkColorJitter (b c s : ℚ) (hue : Int) : Except BuildError OpHandle :=
  if b < 0 ∨ c < 0 ∨ s < 0 ∨ hue < 0 then
    .error (.badValue "ColorJitter: all arguments must be non-negative")
  else .ok (.colorJitter b c s hue)

/-- `AdjustBrightness::AdjustBrightness`: rejects `min > max`. -/
def mkAdjustBrightness (mn mx : ℚ) : Except BuildError OpHandle :=
  if mn > mx then .error (.badValue "AdjustBrightness: minimum value cannot be greater than maximum value")
  else .ok (.adjustBrightness mn mx)

/-- `AdjustContrast::AdjustContrast`: rejects `min > max`. -/
def mkAdjustContrast (mn mx : ℚ) : Except BuildError OpHandle :=
  if mn > mx then .error (.badValue "AdjustContrast: minimum value cannot be greater than maximum value")
  else .ok (.adjustContrast mn mx)

/-- `AdjustSaturation::AdjustSaturation`: rejects `min > max`. -/
def mkAdjustSaturation (mn mx : ℚ) : Except BuildError OpHandle :=
  if mn > mx then .error (.badValue "AdjustSaturation: minimum value cannot be greater than maximum value")
  else .ok (.adjustSaturation mn mx)

/-- `AdjustHue::AdjustHue(int, int)`: rejects `min > max` (after the
implicit `double → int` conversion at the call site). -/
def mkAdjustHue (mn mx : Int) : Except BuildError OpHandle :=
  if mn > mx then .error (.badValue "AdjustHue: minimum value cannot be greater than maximum value")
  else .ok (.adjustHue mn mx)

/-- `RandomErase::RandomErase(int, int, int, int)`: rejects
`min_h > max_h`, then `min_w > max_w`, then negative maxima. -/
def mkRandomErase (minH maxH minW maxW : Int) : Except BuildError OpHandle :=
  if minH > maxH then .error (.badValue "RandomErase: min height cannot be greater than max height")
  else if minW > maxW then .error (.badValue "RandomErase: min width cannot be greater than max width")
  else if maxW < 0 ∨ maxH < 0 then
    .error (.badValue "RandomErase: width and height parameters cannot be negative")
  else .ok (.randomErase minH maxH minW maxW)

/-- The name normalization of `create`:
`std::transform(key.begin(), key.end(), key.begin(), ::tolower)` —
byte-wise ASCII lower-casing. -/
def strToLower (s : String) : String :=
  String.mk (s.data.map Char.toLower)

/-- The registered (lower-case) operation names, in dispatch order. -/
def registeredNames : List String :=
  ["rotate", "reflect", "resize", "crop", "affine transform", "color jitter",
   "histogram equalization", "white balance", "to grayscale",
   "adjust brightness", "adjust contrast", "adjust saturation", "adjust hue",
   "inject noise", "blur image", "sharpen image", "random erase"]

namespace OperationFactory

/-- `OperationFactory::create(name, params, prob)` (the explicit-parameter
overload): lower-case the name, dispatch, validate counts, run the
constructor.  The probability is stored unvalidated, as in the source. -/
def create (name : String) (params : List ℚ) (prob : ℚ) : Except BuildError (OpHandle × ℚ) :=
  let key := strToLower name
  (if key = "rotate" then
    if params.length ≠ 3 then .error (.badCount "rotation operation takes 3 arguments")
    else mkRotate (params.getD 0 0) (params.getD 1 0) (cppSizeT (params.getD 2 0))
  else if key = "reflect" then
    if params.length ≠ 0 then .error (.badCount "reflect operation takes no arguments")
    else .ok .reflect
  else if key = "resize" then
    if params.length = 2 then mkResizeScale (params.getD 0 0) (params.getD 1 0)
    else if params.length = 4 then
      mkResizeAbs (cppInt (params.getD 0 0)) (cppInt (params.getD 1 0))
        (cppInt (params.getD 2 0)) (cppInt (params.getD 3 0))
    else .error (.badCount "resize operation takes 2 or 4 arguments")
  else if key = "crop" then
    if params.length = 2 then mkCropRandom (cppInt (params.getD 0 0)) (cppInt (params.getD 1 0))
    else if params.length = 4 then
      mkCropFixed (cppInt (params.getD 0 0)) (cppInt (params.getD 1 0))
        (cppInt (params.getD 2 0)) (cppInt (params.getD 3 0))
    else .error (.badCount "crop operation takes 2 or 4 arguments")
  else if key = "affine transform" then
    if params.length = 0 then .ok .affineRandom
    else if params.length = 6 then .ok (.affineFixed params)
    else .error (.badCount "affine transform operation takes 0 or 6 arguments")
  else if key = "color jitter" then
    if params.length ≠ 4 then .error (.badCount "color jitter operation takes 4 arguments")
    else mkColorJitter (params.getD 0 0) (params.getD 1 0) (params.getD 2 0)
      (cppInt (params.getD 3 0))
  else if key = "histogram equalization" then
    if params.length ≠ 0 then .error (.badCount "histogram equalization takes 0 arguments")
    else .ok .histEq
  else if key = "white balance" then
    if params.length ≠ 0 then .error (.badCount "white balance takes 0 arguments")
    else .ok .whiteBalance
  else if key = "to grayscale" then
    if params.length ≠ 0 then .error (.badCount "to grayscale takes 0 arguments")
    else .ok .toGrayscale
  else if key = "adjust brightness" then
    if params.length ≠ 2 then .error (.badCount "adjust brightness takes 2 arguments")
    else mkAdjustBrightness (params.getD 0 0) (params.getD 1 0)
  else if key = "adjust contrast" then
    if params.length ≠ 2 then .error (.badCount "adjust contrast takes 2 arguments")
    else mkAdjustContrast (params.getD 0 0) (params.getD 1 0)
  else if key = "adjust saturation" then
    if params.length ≠ 2 then .error (.badCount "adjust saturation takes 2 arguments")
    else mkAdjustSaturation (params.getD 0 0) (params.getD 1 0)
  else if key = "adjust hue" then
    if params.length ≠ 2 then .error (.badCount "adjust hue takes 2 arguments")
    else mkAdjustHue (cppInt (params.getD 0 0)) (cppInt (params.getD 1 0))
  else if key = "inject noise" then
    if params.length = 0 then .ok .injectNoiseDefault
    else if params.length = 4 then
      .ok (.injectNoise (params.getD 0 0) (params.getD 1 0) (params.getD 2 0) (params.getD 3 0))
    else .error (.badCount "inject noise must take 0 or 4 arguments")
  else if key = "blur image" then
    if params.length = 0 then .ok .blurDefault
    else if params.length = 2 then .ok (.blur (cppInt (params.getD 0 0)) (cppInt (params.getD 1 0)))
    else .error (.badCount "blur image must take 0 or 2 arguments")
  else if key = "sharpen image" then
    if params.length = 0 then .ok .sharpen
    else .error (.badCount "sharpen image take 0 arguments")
  else if key = "random erase" then
    if params.length = 0 then .ok .randomEraseDefault
    else if params.length = 4 then
      mkRandomErase (cppInt (params.getD 0 0)) (cppInt (params.getD 1 0))
        (cppInt (params.getD 2 0)) (cppInt (params.getD 3 0))
    else .error (.badCount "random erase must take 0 or 4 arguments")
  else
    .error (.unrecognized name)).map (fun h => (h, prob))

end OperationFactory

/-! ## ThreadController (src/thread_controller.cpp)

`ThreadController::run` performs, on the orchestrating thread and in
program order: launch the producer threads, launch the consumer thread,
push every task (`iterations` copies of each path) into the task queue,
close the task queue (`pathQueue_.setDone()`), and then
`waitForCompletion()`: join every producer, close the result queue
(`imageQueue_.setDone()`), join the consumer.  This sequence of queue
and thread lifecycle operations is embedded as an event trace. -/

/-- A queue/thread lifecycle operation issued by the orchestrator. -/
inductive Event where
  | launchProducer (i : Nat)
  | launchConsumer
  | pushTask (path : String)
  | closeTaskQueue
  | joinProducer (i : Nat)
  | closeResultQueue
  | joinConsumer
deriving DecidableEq, Repr

/-- The lifecycle event trace of `ThreadController::run` followed by
`waitForCompletion`.  An empty path list returns early with no events;
`iterations <= 0` throws `std::invalid_argument`. -/
def runTrace (numThreads : Nat) (image_paths : List String) (iterations : Int) :
    Except String (List Event) :=
  if image_paths.isEmpty then .ok []
  else if iterations ≤ 0 then
    .error "ThreadController: iterations must be at least 1."
  else .ok
    (((List.range numThreads).map Event.launchProducer) ++ [Event.launchConsumer]
      ++ (image_paths.flatMap fun p => List.replicate iterations.toNat (Event.pushTask p))
      ++ [Event.closeTaskQueue]
      ++ ((List.range numThreads).map Event.joinProducer)
      ++ [Event.closeResultQueue, Event.joinConsumer])

/-- The per-task body of `producerPool` (src/multithread.cpp) for one
popped path: construct the image (threading the id counter), run the
pipeline, push the result; the surrounding `try` block is the `Except`.
Image construction and the (totally modelled) pipeline return normally,
so the catch branch is reached by neither. -/
def producerStep (decoded : Option PixelBuf) (path : String) (counter : Nat)
    (p : Pipeline) (outQ : SafeQueue Image) : Except String (SafeQueue Image) × Nat :=
  let (img, c', _) := imageFromPath decoded path counter
  (.ok (outQ.push (p.applyAuto img)), c')

/-! ## Queue lemmas -/

/-- Draining a closed queue: `pop` returns every buffered item, in
order, once the queue is done. -/
lemma popOks_done {T : Type} (buf : List T) :
    popOks buf.length { queue := buf, done := true } = (buf.map some, { queue := [], done := true }) := by
  induction buf with
  | nil => simp [popOks, SafeQueue.pop?]
  | cons x rest ih => simp [popOks, SafeQueue.pop?, ih]

/-- C2 — The queue has no capacity: `push` never blocks and always
enqueues, so the buffered count grows past any capacity bound; in
particular two pushes into an "capacity 1" queue leave 2 items. -/
theorem SafeQueue.push_unbounded :
    (∀ (q : SafeQueue Nat) (x : Nat), (q.push x).queue.length = q.queue.length + 1)
    ∧ ((((⟨[], false⟩ : SafeQueue Nat).push 1).push 2).queue.length = 2) := by
  constructor
  · intro q x
    simp [SafeQueue.push]
  · rfl

/-- C3 counterexample — pushing 42 into a closed empty queue does not
leave the contents unchanged, and the next `pop` observes the item. -/
theorem SafeQueue.push_after_close_not_dropped :
    ¬(((SafeQueue.setDone (⟨[], false⟩ : SafeQueue Nat)).push 42).queue
        = (SafeQueue.setDone (⟨[], false⟩ : SafeQueue Nat)).queue)
    ∧ ((SafeQueue.setDone (⟨[], false⟩ : SafeQueue Nat)).push 42).pop?
        = some (some 42, ⟨[], true⟩) := by
  decide

/-- C3 (amended) — `push` on a closed queue still enqueues: the contents
become the old contents plus the item, and draining the queue returns
the pushed item as well. -/
theorem SafeQueue.push_after_close_enqueues :
    ∀ (q : SafeQueue Nat) (x : Nat), q.done = true →
      (q.push x).queue = q.queue ++ [x]
      ∧ (popOks (q.queue.length + 1) (q.push x)).1 = (q.queue ++ [x]).map some := by
  intro q x hdone
  refine ⟨rfl, ?_⟩
  have hq : q.push x = { queue := q.queue ++ [x], done := true } := by
    simp [SafeQueue.push, hdone]
  have hlen : q.queue.length + 1 = (q.queue ++ [x]).length := by simp
  rw [hq, hlen, popOks_done]

/-- Witness for C3's amended theorem at queue `[7]`, item 42. -/
theorem SafeQueue.push_after_close_enqueues_witness :
    ((⟨[7], true⟩ : SafeQueue Nat).push 42).queue = [7] ++ [42]
    ∧ (popOks ([7].length + 1) ((⟨[7], true⟩ : SafeQueue Nat).push 42)).1
        = ([7] ++ [42]).map some :=
  SafeQueue.push_after_close_enqueues ⟨[7], true⟩ 42 rfl

/-- C4 — `pop` reports `ok=false` exactly on an empty closed queue,
returns the front item whenever one is buffered, and after closing with
`K` buffered items the next `K` pops return them all before a pop
returns `ok=false`. -/
theorem SafeQueue.pop_false_iff_empty_closed :
    ∀ (q : SafeQueue Nat) (buf : List Nat),
      (q.pop? = some (none, q) ↔ q.queue = [] ∧ q.done = true)
      ∧ (∀ x rest, q.queue = x :: rest → q.pop? = some (some x, { q with queue := rest }))
      ∧ ((popOks buf.length (SafeQueue.setDone { queue := buf, done := false })).1 = buf.map some
         ∧ (popOks buf.length (SafeQueue.setDone { queue := buf, done := false })).2.pop?
             = some (none, { queue := [], done := true })) := by
  intro q buf
  refine ⟨?_, ?_, ?_⟩
  · obtain ⟨qs, d⟩ := q
    cases qs <;> cases d <;> simp [SafeQueue.pop?]
  · intro x rest hq
    simp [SafeQueue.pop?, hq]
  · have h : SafeQueue.setDone { queue := buf, done := false } = { queue := buf, done := true } := rfl
    rw [h, popOks_done]
    exact ⟨rfl, rfl⟩

/-- Witness for C4 at the closed queue `[5]` and buffer `[1, 2]`. -/
theorem SafeQueue.pop_false_iff_empty_closed_witness :
    (⟨[5], true⟩ : SafeQueue Nat).pop? = some (some 5, { (⟨[5], true⟩ : SafeQueue Nat) with queue := [] }) :=
  (SafeQueue.pop_false_iff_empty_closed ⟨[5], true⟩ [1, 2]).2.1 5 [] rfl

/-- C10 — constructing an `Image` from an undecodable path returns
normally: empty pixel buffer, name equal to the path, a fresh id from
the counter, only a diagnostic on stderr; the producer's try/catch
recovery is therefore never entered because of a failed load. -/
theorem imageFromPath_decode_failure :
    ∀ (path : String) (c : Nat) (p : Pipeline) (outQ : SafeQueue Image),
      imageFromPath none path c
        = ({ data := [], name := path, id := c, history := [] }, c + 1,
           some ("Error: Failed to load image from " ++ path))
      ∧ (producerStep none path c p outQ).1
          = .ok (outQ.push (p.applyAuto { data := [], name := path, id := c, history := [] })) := by
  intro path c p outQ
  exact ⟨rfl, rfl⟩

/-! ## Generator and pipeline lemmas -/

/-- The drawn value `coin` tests is exactly `u / 2^64 < prob`. -/
lemma coin_eq_div (u : Nat) (prob : ℚ) :
    coin u prob = decide ((u : ℚ) / 2 ^ 64 < prob) := by
  have h : ((2 ^ 64 : Nat) : ℚ) = (2 : ℚ) ^ 64 := by push_cast; ring
  rw [coin, Rat.mkRat_eq_div, ← h]
  norm_num

/-- Tempered outputs are 32-bit words. -/
lemma temper_lt (y : Nat) : temper y < mtMod := by
  have h : (0 : Nat) < mtMod := by norm_num [mtMod]
  exact Nat.mod_lt _ h

/-- Every raw generator output is a 32-bit word. -/
lemma next_fst_lt (g : MTState) : g.next.1 < mtMod := by
  rw [MTState.next]
  split <;> exact temper_lt _

/-- The scaled uniform draw lies below 2^64: the drawn real value is in
[0, 1). -/
lemma nextCanonical_lt (g : MTState) : (nextCanonical g).1 < 2 ^ 64 := by
  rcases hg : g.next with ⟨x1, g1⟩
  rcases hg1 : g1.next with ⟨x2, g2⟩
  have h1 : x1 < mtMod := by have := next_fst_lt g; rwa [hg] at this
  have h2 : x2 < mtMod := by have := next_fst_lt g1; rwa [hg1] at this
  have : x1 + x2 * mtMod < 2 ^ 64 := by
    have h2' : x2 ≤ mtMod - 1 := by omega
    have : x2 * mtMod ≤ (mtMod - 1) * mtMod := Nat.mul_le_mul_right _ h2'
    simp only [mtMod] at *
    omega
  simpa [nextCanonical, hg, hg1] using this

/-- A probability-0 entry never passes the coin flip. -/
lemma coin_zero (u : Nat) : coin u 0 = false := by
  rw [coin_eq_div]
  simp only [decide_eq_false_iff_not, not_lt]
  positivity

/-- A probability-1 entry always passes the coin flip (the drawn value
is below 1). -/
lemma coin_one (u : Nat) (hu : u < 2 ^ 64) : coin u 1 = true := by
  rw [coin_eq_div]
  simp only [decide_eq_true_eq]
  rw [div_lt_one (by positivity)]
  calc (u : ℚ) < ((2 ^ 64 : Nat) : ℚ) := by exact_mod_cast hu
    _ = (2 : ℚ) ^ 64 := by push_cast; ring

/-- Position `k` of the decision trace: a probability-0 entry is never
invoked, a probability-1 entry always is. -/
lemma traceEntries_getElem :
    ∀ (es : List OperationEntry) (g : MTState) (k : Nat) (e : OperationEntry),
      es[k]? = some e →
      ((e.prob = 0 → (traceEntries es g)[k]? = some (false, none))
       ∧ (e.prob = 1 → ∃ par, (traceEntries es g)[k]? = some (true, some par))) := by
  intro es
  induction es with
  | nil => intro g k e he; simp at he
  | cons e0 es ih =>
    intro g k e he
    rcases hg : nextCanonical g with ⟨u, g1⟩
    have hu : u < 2 ^ 64 := by have := nextCanonical_lt g; rwa [hg] at this
    cases k with
    | zero =>
      simp only [List.getElem?_cons_zero, Option.some_inj] at he
      constructor
      · intro hp
        rw [← he] at hp
        simp [traceEntries, hg, hp, coin_zero]
      · intro hp
        rw [← he] at hp
        rcases hs : e0.op.sample g1 with ⟨par, g2⟩
        exact ⟨par, by simp [traceEntries, hg, hp, coin_one u hu, hs]⟩
    | succ k =>
      simp only [List.getElem?_cons_succ] at he
      constructor
      · intro hp
        by_cases hc : coin u e0.prob
        · rcases hs : e0.op.sample g1 with ⟨par, g2⟩
          have := (ih g2 k e he).1 hp
          simp [traceEntries, hg, hc, hs, this]
        · have := (ih g1 k e he).1 hp
          simp [traceEntries, hg, hc, this]
      · intro hp
        by_cases hc : coin u e0.prob
        · rcases hs : e0.op.sample g1 with ⟨par, g2⟩
          obtain ⟨par', hpar⟩ := (ih g2 k e he).2 hp
          exact ⟨par', by simp [traceEntries, hg, hc, hs, hpar]⟩
        · obtain ⟨par', hpar⟩ := (ih g1 k e he).2 hp
          exact ⟨par', by simp [traceEntries, hg, hc, hpar]⟩

/-- C6 — in every pipeline run, an entry with probability 0 is never
invoked and an entry with probability 1 is always invoked, whatever the
seed: `apply` draws one uniform value per entry and invokes the
operation exactly when the value is below the probability. -/
theorem Pipeline.prob_boundary :
    ∀ (p : Pipeline) (s : Nat) (k : Nat) (e : OperationEntry),
      p.operations[k]? = some e →
      ((e.prob = 0 → (p.traceWithSeed s)[k]? = some (false, none))
       ∧ (e.prob = 1 → ∃ par, (p.traceWithSeed s)[k]? = some (true, some par))) := by
  intro p s k e he
  exact traceEntries_getElem p.operations (mtSeed (s % mtMod)) k e he

/-- A two-entry pipeline exercising both probability boundaries. -/
def boundaryPipeline : Pipeline :=
  { operations := [⟨reflectImageOp, 0⟩, ⟨reflectImageOp, 1⟩], base_seed := 0 }

/-- Witness for C6: in `boundaryPipeline` under seed 3, the
probability-0 entry is skipped and the probability-1 entry applies. -/
theorem Pipeline.prob_boundary_witness :
    ((boundaryPipeline.traceWithSeed 3)[0]? = some (false, none))
    ∧ (∃ par, (boundaryPipeline.traceWithSeed 3)[1]? = some (true, some par)) :=
  ⟨(Pipeline.prob_boundary boundaryPipeline 3 0 ⟨reflectImageOp, 0⟩ rfl).1 rfl,
   (Pipeline.prob_boundary boundaryPipeline 3 1 ⟨reflectImageOp, 1⟩ rfl).2 rfl⟩

/-- A pipeline run appends to the history exactly the lines determined
by the decision trace — independently of the image's pixel content, name
or id — and leaves name and id untouched. -/
lemma applyEntries_history :
    ∀ (es : List OperationEntry) (img : Image) (g : MTState),
      (applyEntries es img g).1.history = img.history ++ historyOfTrace es (traceEntries es g)
      ∧ (applyEntries es img g).1.name = img.name
      ∧ (applyEntries es img g).1.id = img.id := by
  intro es
  induction es with
  | nil => intro img g; simp [applyEntries, traceEntries, historyOfTrace]
  | cons e es ih =>
    intro img g
    rcases hg : nextCanonical g with ⟨u, g1⟩
    cases hc : coin u e.prob
    · have h := ih img g1
      simp [applyEntries, traceEntries, hg, hc, historyOfTrace, h.1, h.2.1, h.2.2]
    · rcases hs : e.op.sample g1 with ⟨par, g2⟩
      have h := ih { img with
        data := e.op.transform par img.data
        history := img.history ++ [e.op.logMsg par] } g2
      simp [applyEntries, Operation.applyOp, traceEntries, hg, hs, hc, historyOfTrace,
        h.1, h.2.1, h.2.2]

/-- C5 — with an explicit seed, two arbitrary images (any pixel
content, name, id, prior history) run through the same pipeline receive
exactly the same decision trace: the same sequence of invoked-operation
decisions, the same sampled parameters, and hence the same appended
history lines. -/
theorem Pipeline.paired_determinism :
    ∀ (p : Pipeline) (s : Nat) (imgA imgB : Image),
      (p.applyWithSeed imgA s).history
        = imgA.history ++ historyOfTrace p.operations (p.traceWithSeed s)
      ∧ (p.applyWithSeed imgB s).history
        = imgB.history ++ historyOfTrace p.operations (p.traceWithSeed s) := by
  intro p s imgA imgB
  exact ⟨(applyEntries_history p.operations imgA (mtSeed (s % mtMod))).1,
         (applyEntries_history p.operations imgB (mtSeed (s % mtMod))).1⟩

/-- A pipeline run reads nothing of the image beyond its pixel data and
history: two images agreeing there evolve identically under the same
generator. -/
lemma applyEntries_congr :
    ∀ (es : List OperationEntry) (a b : Image) (g : MTState),
      a.data = b.data → a.history = b.history →
      (applyEntries es a g).1.data = (applyEntries es b g).1.data
      ∧ (applyEntries es a g).1.history = (applyEntries es b g).1.history := by
  intro es
  induction es with
  | nil => intro a b g hd hh; simpa [applyEntries] using ⟨hd, hh⟩
  | cons e es ih =>
    intro a b g hd hh
    rcases hg : nextCanonical g with ⟨u, g1⟩
    cases hc : coin u e.prob
    · have h := ih a b g1 hd hh
      simpa [applyEntries, hg, hc] using h
    · rcases hs : e.op.sample g1 with ⟨par, g2⟩
      have h := ih { a with
          data := e.op.transform par a.data
          history := a.history ++ [e.op.logMsg par] }
        { b with
          data := e.op.transform par b.data
          history := b.history ++ [e.op.logMsg par] } g2
        (by simp [hd]) (by simp [hh])
      simpa [applyEntries, Operation.applyOp, hg, hs, hc] using h

/-- C1 (amended) — the internally seeded `apply` derives its generator
seed from `base_seed_ + img.getId()`, the image's global id — not from
its name: two images agreeing in id, pixel data and prior history
produce identical history logs and identical final pixel buffers
whatever their names; identically constructed images, however, draw
distinct consecutive ids from the global counter, so the guarantee does
not extend to them. -/
theorem Pipeline.applyAuto_determined_by_id :
    ∀ (p : Pipeline) (a b : Image),
      a.id = b.id → a.data = b.data → a.history = b.history →
      (p.applyAuto a).history = (p.applyAuto b).history
      ∧ (p.applyAuto a).data = (p.applyAuto b).data := by
  intro p a b hid hd hh
  have h := applyEntries_congr p.operations a b (mtSeed ((p.base_seed + a.id) % mtMod)) hd hh
  rw [Pipeline.applyAuto, Pipeline.applyAuto, ← hid]
  exact ⟨h.2, h.1⟩

/-- Witness for C1's amended theorem: two images equal except for their
names produce the same history and pixels under `applyAuto`. -/
theorem Pipeline.applyAuto_determined_by_id_witness :
    (demoPipeline.applyAuto { data := demoBuf, name := "a.png", id := 5, history := [] }).history
      = (demoPipeline.applyAuto { data := demoBuf, name := "b.png", id := 5, history := [] }).history
    ∧ (demoPipeline.applyAuto { data := demoBuf, name := "a.png", id := 5, history := [] }).data
      = (demoPipeline.applyAuto { data := demoBuf, name := "b.png", id := 5, history := [] }).data :=
  Pipeline.applyAuto_determined_by_id demoPipeline _ _ rfl rfl rfl

set_option maxRecDepth 100000 in
/-- C1 counterexample — the claim as stated fails on the code: the two
identically constructed images `demoImageA`/`demoImageB` (same name
"img.png", same pixel data, consecutive ids 0 and 1 from the counter)
run through the one-entry reflect pipeline with base seed 1 end with
different history logs ("ReflectImage: Horizontal" versus
"ReflectImage: Vertical") and different pixel buffers. -/
theorem Pipeline.applyAuto_not_name_determined :
    ¬((demoPipeline.applyAuto demoImageA).history = (demoPipeline.applyAuto demoImageB).history
      ∧ (demoPipeline.applyAuto demoImageA).data = (demoPipeline.applyAuto demoImageB).data) := by
  decide

/-! ## Orchestration-order lemmas (C7) -/

/-- An index holding an element that does not occur in the suffix lies
in the prefix. -/
lemma index_lt_of_not_mem_right {α : Type} {A B : List α} {i : Nat} {e : α}
    (h : (A ++ B)[i]? = some e) (hB : e ∉ B) : i < A.length := by
  by_contra hi
  push_neg at hi
  rw [List.getElem?_append_right hi] at h
  exact hB (List.getElem?_mem h)

/-- An index holding an element that does not occur in the prefix lies
past the prefix. -/
lemma index_ge_of_not_mem_left {α : Type} {A B : List α} {i : Nat} {e : α}
    (h : (A ++ B)[i]? = some e) (hA : e ∉ A) : A.length ≤ i := by
  by_contra hi
  push_neg at hi
  rw [List.getElem?_append_left hi] at h
  exact hA (List.getElem?_mem h)

/-- C7 — in every successful `ThreadController::run`, the task queue is
closed only after every task push, the result queue is closed only
after every producer join (so never while a producer is still running),
and the consumer is joined last, after the result queue is closed. -/
theorem runTrace_shutdown_order :
    ∀ (numThreads : Nat) (paths : List String) (iterations : Int) (tr : List Event),
      runTrace numThreads paths iterations = .ok tr →
      (∀ (i j : Nat) (p : String),
         tr[i]? = some (Event.pushTask p) → tr[j]? = some Event.closeTaskQueue → i < j)
      ∧ (∀ (i j k : Nat),
         tr[i]? = some (Event.joinProducer k) → tr[j]? = some Event.closeResultQueue → i < j)
      ∧ (∀ (i j : Nat),
         tr[i]? = some Event.closeResultQueue → tr[j]? = some Event.joinConsumer → i < j) := by
  intro n paths iters tr h
  by_cases hempty : paths.isEmpty
  · -- early return: empty trace, all conjuncts vacuous
    rw [runTrace, if_pos hempty] at h
    injection h with h
    subst h
    refine ⟨?_, ?_, ?_⟩ <;> intro i j <;> intros <;> simp_all
  · by_cases hiter : iters ≤ 0
    · -- iterations ≤ 0 throws
      rw [runTrace, if_neg hempty, if_pos hiter] at h
      cases h
    · rw [runTrace, if_neg hempty, if_neg hiter] at h
      injection h with h
      subst h
      set launches := (List.range n).map Event.launchProducer with hlaunches
      set pushes := paths.flatMap (fun p => List.replicate iters.toNat (Event.pushTask p)) with hpushes
      set joins := (List.range n).map Event.joinProducer with hjoins
      have hassoc1 :
          launches ++ [Event.launchConsumer] ++ pushes ++ [Event.closeTaskQueue]
            ++ joins ++ [Event.closeResultQueue, Event.joinConsumer]
          = (launches ++ [Event.launchConsumer] ++ pushes)
            ++ ([Event.closeTaskQueue] ++ joins ++ [Event.closeResultQueue, Event.joinConsumer]) := by
        simp [List.append_assoc]
      have hassoc2 :
          launches ++ [Event.launchConsumer] ++ pushes ++ [Event.closeTaskQueue]
            ++ joins ++ [Event.closeResultQueue, Event.joinConsumer]
          = (launches ++ [Event.launchConsumer] ++ pushes ++ [Event.closeTaskQueue] ++ joins)
            ++ [Event.closeResultQueue, Event.joinConsumer] := by
        simp [List.append_assoc]
      have hassoc3 :
          launches ++ [Event.launchConsumer] ++ pushes ++ [Event.closeTaskQueue]
            ++ joins ++ [Event.closeResultQueue, Event.joinConsumer]
          = (launches ++ [Event.launchConsumer] ++ pushes ++ [Event.closeTaskQueue] ++ joins
              ++ [Event.closeResultQueue]) ++ [Event.joinConsumer] := by
        simp [List.append_assoc]
      refine ⟨?_, ?_, ?_⟩
      · intro i j p hi hj
        rw [hassoc1] at hi hj
        have hiu : i < (launches ++ [Event.launchConsumer] ++ pushes).length := by
          refine index_lt_of_not_mem_right hi ?_
          simp [hjoins, List.mem_append, List.mem_map]
        have hjl : (launches ++ [Event.launchConsumer] ++ pushes).length ≤ j := by
          refine index_ge_of_not_mem_left hj ?_
          simp [hlaunches, hpushes, List.mem_append, List.mem_map, List.mem_flatMap,
            List.mem_replicate]
        omega
      · intro i j k hi hj
        rw [hassoc2] at hi hj
        have hiu : i < (launches ++ [Event.launchConsumer] ++ pushes ++ [Event.closeTaskQueue] ++ joins).length := by
          refine index_lt_of_not_mem_right hi ?_
          simp
        have hjl : (launches ++ [Event.launchConsumer] ++ pushes ++ [Event.closeTaskQueue] ++ joins).length ≤ j := by
          refine index_ge_of_not_mem_left hj ?_
          simp [hlaunches, hpushes, hjoins, List.mem_append, List.mem_map, List.mem_flatMap,
            List.mem_replicate]
        omega
      · intro i j hi hj
        rw [hassoc3] at hi hj
        have hiu : i < (launches ++ [Event.launchConsumer] ++ pushes ++ [Event.closeTaskQueue] ++ joins
            ++ [Event.closeResultQueue]).length := by
          refine index_lt_of_not_mem_right hi ?_
          simp
        have hjl : (launches ++ [Event.launchConsumer] ++ pushes ++ [Event.closeTaskQueue] ++ joins
            ++ [Event.closeResultQueue]).length ≤ j := by
          refine index_ge_of_not_mem_left hj ?_
          simp [hlaunches, hpushes, hjoins, List.mem_append, List.mem_map, List.mem_flatMap,
            List.mem_replicate]
        omega

/-- Witness for C7 at one path, one iteration, one producer: the push
(index 2) precedes the task-queue close (index 3), the producer join
(index 4) precedes the result-queue close (index 5), which precedes the
consumer join (index 6). -/
theorem runTrace_shutdown_order_witness :
    ((2 : Nat) < 3) ∧ ((4 : Nat) < 5) ∧ ((5 : Nat) < 6) := by
  have h := runTrace_shutdown_order 1 ["a"] 1
    [.launchProducer 0, .launchConsumer, .pushTask "a", .closeTaskQueue,
     .joinProducer 0, .closeResultQueue, .joinConsumer] (by rfl)
  exact ⟨h.1 2 3 "a" rfl rfl, h.2.1 4 5 0 rfl rfl, h.2.2 5 6 rfl rfl⟩

/-! ## Factory lemmas (C8, C9) -/

/-- C8 — `OperationFactory::create` matches the operation name
case-insensitively: any two spellings with the same lower-casing build
the same operation; and every name whose lower-casing is not in the
registered set fails with the "is not recognized" error instead of
returning a handle. -/
theorem OperationFactory.create_case_insensitive :
    ∀ (n1 n2 : String) (params : List ℚ) (prob : ℚ),
      (strToLower n1 = strToLower n2 → strToLower n1 ∈ registeredNames →
        OperationFactory.create n1 params prob = OperationFactory.create n2 params prob)
      ∧ (strToLower n1 ∉ registeredNames →
        OperationFactory.create n1 params prob = .error (.unrecognized n1)) := by
  intro n1 n2 params prob
  constructor
  · intro hlow hmem
    simp only [OperationFactory.create]
    rw [hlow]
    simp only [registeredNames, List.mem_cons, List.not_mem_nil, or_false] at hmem
    rw [hlow] at hmem
    rcases hmem with h | h | h | h | h | h | h | h | h | h | h | h | h | h | h | h | h <;>
      rw [h] <;> rfl
  · intro hmem
    simp only [registeredNames, List.mem_cons, List.not_mem_nil, or_false, not_or] at hmem
    obtain ⟨h1, h2, h3, h4, h5, h6, h7, h8, h9, h10, h11, h12, h13, h14, h15, h16, h17⟩ := hmem
    simp only [OperationFactory.create]
    rw [if_neg h1, if_neg h2, if_neg h3, if_neg h4, if_neg h5, if_neg h6, if_neg h7,
      if_neg h8, if_neg h9, if_neg h10, if_neg h11, if_neg h12, if_neg h13, if_neg h14,
      if_neg h15, if_neg h16, if_neg h17]
    rfl

/-- Witness for C8: mixed-case "Rotate"/"ROTATE" build the same
operation, and an unknown name is rejected as unrecognized. -/
theorem OperationFactory.create_case_insensitive_witness :
    OperationFactory.create "Rotate" [0, 1, 0] 1 = OperationFactory.create "ROTATE" [0, 1, 0] 1
    ∧ OperationFactory.create "bogus" [] 1 = .error (.unrecognized "bogus") :=
  ⟨(OperationFactory.create_case_insensitive "Rotate" "ROTATE" [0, 1, 0] 1).1 rfl (by decide),
   (OperationFactory.create_case_insensitive "bogus" "bogus" [] 1).2 (by decide)⟩

/-- C9 — building "resize" succeeds only with exactly 2 or exactly 4
parameters and fails with the argument-count error on every other
length; building "rotate" with min angle 10 above max angle −10 fails
at build time with the argument-value error from the `RotateImage`
constructor. -/
theorem OperationFactory.resize_rotate_validation :
    ∀ (params : List ℚ) (prob : ℚ),
      (∀ hres, OperationFactory.create "resize" params prob = .ok hres →
        params.length = 2 ∨ params.length = 4)
      ∧ (params.length ≠ 2 → params.length ≠ 4 →
        OperationFactory.create "resize" params prob
          = .error (.badCount "resize operation takes 2 or 4 arguments"))
      ∧ (OperationFactory.create "rotate" [10, -10, 0] prob
          = .error (.badValue "RotateImage: min angle cannot be greater than max angle")) := by
  intro params prob
  have herr : params.length ≠ 2 → params.length ≠ 4 →
      OperationFactory.create "resize" params prob
        = .error (.badCount "resize operation takes 2 or 4 arguments") := by
    intro h2 h4
    simp only [OperationFactory.create]
    rw [if_neg (by decide : ¬strToLower "resize" = "rotate"),
      if_neg (by decide : ¬strToLower "resize" = "reflect"),
      if_pos (by decide : strToLower "resize" = "resize"),
      if_neg h2, if_neg h4]
    rfl
  refine ⟨?_, herr, ?_⟩
  · intro hres hok
    by_cases h2 : params.length = 2
    · exact Or.inl h2
    · by_cases h4 : params.length = 4
      · exact Or.inr h4
      · rw [herr h2 h4] at hok
        cases hok
  · rfl

/-- Witness for C9: a 2-parameter resize build succeeds (so the
disjunction is realized), and a 1-parameter resize build yields the
count error. -/
theorem OperationFactory.resize_rotate_validation_witness :
    (([0, 1] : List ℚ).length = 2 ∨ ([0, 1] : List ℚ).length = 4)
    ∧ OperationFactory.create "resize" [0] 1
        = .error (.badCount "resize operation takes 2 or 4 arguments") :=
  ⟨(OperationFactory.resize_rotate_validation [0, 1] 1).1 (.resizeScale 0 1, 1) rfl,
   (OperationFactory.resize_rotate_validation [0] 1).2.1 (by decide) (by decide)⟩

end Augmento
